import Mathlib

/-!
# Verification of the rrryanjjj/ryandata synchronization core

Shallow embedding of the client-side synchronization engine
(`CloudSyncManager`, `LocalCacheManager`, `AuthManager`, `AuthUI.handleLogout`
in the frontend module) and of the server routes it talks to
(`POST /api/auth/login`, `POST /api/data`, `DELETE /api/data/:id`).

Modelling conventions:
* `localStorage` is a finite association of cache keys (`sales_data_cache_` +
  user id, modelled by the numeric user id) to blobs, plus the single
  `sales_data_pending_ops` entry.  A stored blob is either a well-formed JSON
  serialization of a list (constructor `ok`) or a string `JSON.parse` throws
  on (constructor `bad`), which embeds the try/catch behaviour of the cache
  readers.
* A JavaScript `Date` inside a cached record is represented by its ISO-8601
  instant string (`toISOString` / `new Date` round-trip between the `jsDate`
  and `jsStr` constructors); `new Date(undefined)` yields the invalid date.
* `fetch` is external: each remote call takes the outcome of the round trip
  as an explicit argument — `respOk`/`respErr` for an HTTP reply whose JSON
  body has `success` true/false, `netFail` for a thrown network error.
  Composite operations (`uploadOnline`, `deleteOnline`) connect the client
  to the embedded server routes instead.
* Timestamps (`Date.now()`) are explicit `Nat` arguments; `lastSyncTime` and
  the DB-managed `created_at`/`updated_at` bookkeeping columns are wall-clock
  metadata outside the model, as are DOM updates (`AuthUI.updateSyncStatus`
  writes only to DOM elements and is therefore not part of the engine state).
* `parseInt(x, 10)` on a route parameter is modelled by `parseDecimal`
  (the routes are only exercised on canonical decimal ids).
-/

namespace RyanData

/-- Model of `CloudSyncManager.syncStatus`: 'idle' | 'syncing' | 'error' | 'offline'. -/
inductive SyncStatus
  | idle
  | syncing
  | error
  | offline
deriving DecidableEq, Repr

/-- The `importedAt` field of a cached record: a `Date` object (represented
by its ISO instant), a plain string, or absent (`undefined`). -/
inductive ImpAt
  | jsDate (iso : String)
  | jsStr (s : String)
  | undef
deriving DecidableEq, Repr

/-- One record of a cached month data set; all fields other than
`importedAt` are opaque to the cache layer and collapsed into `payload`. -/
structure Item where
  payload : String
  importedAt : ImpAt
deriving DecidableEq, Repr

/-- Request body of `POST /api/data` (the `monthData` the client uploads):
`{ monthId, monthName, color, config, groupedData, rawData }`.  The JSON
payload fields are kept as opaque serialized strings. -/
structure UploadBody where
  monthId : String
  monthName : String
  color : Option String
  config : String
  groupedData : String
  rawData : String
deriving DecidableEq, Repr

/-- A pending operation recorded by `LocalCacheManager.addPendingOperation`:
`{ type: 'upload'|'delete', data?/monthId?, timestamp }`. -/
inductive PendingOp
  | upload (data : UploadBody) (timestamp : Nat)
  | delete (monthId : String) (timestamp : Nat)
deriving DecidableEq, Repr

/-- A stored cache blob: either a well-formed serialization of a record list
or a string on which `JSON.parse` throws. -/
inductive CacheBlob
  | ok (items : List Item)
  | bad
deriving DecidableEq, Repr

/-- The stored pending-operations blob, same convention as `CacheBlob`. -/
inductive OpsBlob
  | ok (ops : List PendingOp)
  | bad
deriving DecidableEq, Repr

/-- The browser `localStorage` slice owned by `LocalCacheManager`:
one `sales_data_cache_<userId>` entry per user id and the single
`sales_data_pending_ops` entry. -/
structure LocalStore where
  cacheBlobs : List (Nat × CacheBlob)
  opsBlob : Option OpsBlob
deriving DecidableEq, Repr

/-- Model of `localStorage.setItem` on a cache key. -/
def storeSet (l : List (Nat × CacheBlob)) (k : Nat) (v : CacheBlob) :
    List (Nat × CacheBlob) :=
  (k, v) :: l.filter (fun p => p.1 != k)

/-- Model of `localStorage.removeItem` on a cache key. -/
def storeRemove (l : List (Nat × CacheBlob)) (k : Nat) :
    List (Nat × CacheBlob) :=
  l.filter (fun p => p.1 != k)

/-- Serialization step of `LocalCacheManager.cacheData`: an `importedAt`
that is a `Date` instance is stored as its ISO string, anything else is
stored as-is. -/
def serializeItem (i : Item) : Item :=
  { i with importedAt :=
      match i.importedAt with
      | .jsDate iso => .jsStr iso
      | x => x }

/-- Revival step of `LocalCacheManager.getCachedData`:
`importedAt: new Date(d.importedAt)`; a missing field yields the invalid
date (`new Date(undefined)`). -/
def reviveItem (i : Item) : Item :=
  { i with importedAt :=
      match i.importedAt with
      | .jsStr s => .jsDate s
      | .jsDate s => .jsDate s
      | .undef => .jsDate "Invalid Date" }

/-- Model of `LocalCacheManager.cacheData(userId, data)`: no-op when the user id is
absent, otherwise overwrites the whole `sales_data_cache_<userId>` entry
with the serialized list. -/
def cacheData (st : LocalStore) (userId : Option Nat) (data : List Item) :
    LocalStore :=
  match userId with
  | none => st
  | some uid =>
      { st with cacheBlobs := storeSet st.cacheBlobs uid (.ok (data.map serializeItem)) }

/-- Model of `LocalCacheManager.getCachedData(userId)`: `[]` when the user id is
absent, the entry is missing, or `JSON.parse` throws; otherwise the stored
list with `importedAt` revived. -/
def getCachedData (st : LocalStore) (userId : Option Nat) : List Item :=
  match userId with
  | none => []
  | some uid =>
      match st.cacheBlobs.lookup uid with
      | none => []
      | some .bad => []
      | some (.ok items) => items.map reviveItem

/-- Model of `LocalCacheManager.getPendingOperations()`: `[]` when the entry is
missing or `JSON.parse` throws. -/
def getPendingOperations (st : LocalStore) : List PendingOp :=
  match st.opsBlob with
  | none => []
  | some .bad => []
  | some (.ok ops) => ops

/-- Model of `LocalCacheManager.addPendingOperation(operation)`: reads the current
queue (empty on a missing/corrupt blob), pushes, stores back. -/
def addPendingOperation (st : LocalStore) (op : PendingOp) : LocalStore :=
  { st with opsBlob := some (.ok (getPendingOperations st ++ [op])) }

/-- Model of `LocalCacheManager.clearPendingOperations()`. -/
def clearPendingOperations (st : LocalStore) : LocalStore :=
  { st with opsBlob := none }

/-- Model of `LocalCacheManager.clearUserCache(userId)`: no-op when the user id is
absent. -/
def clearUserCache (st : LocalStore) (userId : Option Nat) : LocalStore :=
  match userId with
  | none => st
  | some uid => { st with cacheBlobs := storeRemove st.cacheBlobs uid }

/-- Model of `LocalCacheManager.clearAllCache()`: removes every
`sales_data_cache_`-keyed entry and clears the pending queue. -/
def clearAllCache (st : LocalStore) : LocalStore :=
  clearPendingOperations { st with cacheBlobs := [] }

/-- Model of `AuthManager.currentUser` (the `id` is the server-assigned user id;
it is optional because the field is read with `?.id`). -/
structure User where
  id : Option Nat
  username : String
deriving DecidableEq, Repr

/-- The client state the claims range over: `AuthManager`'s session fields,
`CloudSyncManager.syncStatus`, `navigator.onLine`, and the
`LocalCacheManager` storage slice. -/
structure ClientState where
  token : Option String
  currentUser : Option User
  syncStatus : SyncStatus
  online : Bool
  store : LocalStore
deriving DecidableEq, Repr

/-- Model of `AuthManager.isLoggedIn()`. -/
def isLoggedIn (st : ClientState) : Bool :=
  st.token.isSome && st.currentUser.isSome

/-- Model of `AuthManager.getCurrentUser()?.id`. -/
def currentUserId (st : ClientState) : Option Nat :=
  st.currentUser.bind (·.id)

/-- Model of `CloudSyncManager._setSyncStatus(status)` (the dispatched DOM event is
outside the model). -/
def setSyncStatus (st : ClientState) (s : SyncStatus) : ClientState :=
  { st with syncStatus := s }

/-- Result shape of `uploadData`/`deleteData`:
`{ success, id?, error? }`. -/
structure OpResult where
  success : Bool
  id : Option Nat
  error : Option String
deriving DecidableEq, Repr

/-- Outcome of one `fetch` round trip for a mutation:
an HTTP reply whose body has `success: true` (with the returned id),
a reply with `success: false` (with the body's `error`), or a thrown
network error. -/
inductive FetchOutcome
  | respOk (id : Option Nat)
  | respErr (msg : Option String)
  | netFail
deriving DecidableEq, Repr

/-- Model of `CloudSyncManager.uploadData(monthData)` (frontend lines 778-824).
`now` is `Date.now()`, `out` the outcome of the `fetch`. -/
def uploadData (st : ClientState) (monthData : UploadBody) (now : Nat)
    (out : FetchOutcome) : ClientState × OpResult :=
  if !isLoggedIn st then
    (st, ⟨false, none, some "请先登录"⟩)
  else if !st.online then
    let st := setSyncStatus st .offline
    let st := { st with store := addPendingOperation st.store (.upload monthData now) }
    (st, ⟨false, none, some "网络离线，数据已保存到本地"⟩)
  else
    let st := setSyncStatus st .syncing
    match out with
    | .respOk id => (setSyncStatus st .idle, ⟨true, id, none⟩)
    | .respErr msg => (setSyncStatus st .error, ⟨false, none, some (msg.getD "上传失败")⟩)
    | .netFail =>
        let st := setSyncStatus st .error
        let st := { st with store := addPendingOperation st.store (.upload monthData now) }
        (st, ⟨false, none, some "网络错误，数据已保存到本地"⟩)

/-- Model of `CloudSyncManager.deleteData(monthId)` (frontend lines 832-877). -/
def deleteData (st : ClientState) (monthId : String) (now : Nat)
    (out : FetchOutcome) : ClientState × OpResult :=
  if !isLoggedIn st then
    (st, ⟨false, none, some "请先登录"⟩)
  else if !st.online then
    let st := setSyncStatus st .offline
    let st := { st with store := addPendingOperation st.store (.delete monthId now) }
    (st, ⟨false, none, some "网络离线，操作已保存到本地"⟩)
  else
    let st := setSyncStatus st .syncing
    match out with
    | .respOk _ => (setSyncStatus st .idle, ⟨true, none, none⟩)
    | .respErr msg => (setSyncStatus st .error, ⟨false, none, some (msg.getD "删除失败")⟩)
    | .netFail =>
        let st := setSyncStatus st .error
        let st := { st with store := addPendingOperation st.store (.delete monthId now) }
        (st, ⟨false, none, some "网络错误，操作已保存到本地"⟩)

/-- Return value of `syncPendingOperations`:
`{ success: failed === 0, synced, failed }`. -/
structure SyncReport where
  success : Bool
  synced : Nat
  failed : Nat
deriving DecidableEq, Repr

/-- One iteration of the replay loop in `syncPendingOperations`: dispatch on
`op.type` to `this.uploadData(op.data)` / `this.deleteData(op.monthId)` and
report whether the result was a success. -/
def syncStep (st : ClientState) (op : PendingOp) (now : Nat)
    (out : FetchOutcome) : ClientState × Bool :=
  match op with
  | .upload d _ => let r := uploadData st d now out; (r.1, r.2.success)
  | .delete m _ => let r := deleteData st m now out; (r.1, r.2.success)

/-- The `for (const op of pendingOps)` loop of `syncPendingOperations`,
iterating over the snapshot taken before the loop; `f i` is the fetch
outcome of the `i`-th replayed operation, `synced`/`failed` the running
counters.  (The surrounding `try/catch` is dead in the model because
`uploadData`/`deleteData` already absorb the thrown error.) -/
def syncLoop (st : ClientState) (ops : List PendingOp) (f : Nat → FetchOutcome)
    (i now synced failed : Nat) : ClientState × Nat × Nat :=
  match ops with
  | [] => (st, synced, failed)
  | op :: rest =>
      let r := syncStep st op now (f i)
      if r.2 then syncLoop r.1 rest f (i + 1) now (synced + 1) failed
      else syncLoop r.1 rest f (i + 1) now synced (failed + 1)

/-- Model of `CloudSyncManager.syncPendingOperations()` (frontend lines 941-978). -/
def syncPendingOperations (st : ClientState) (f : Nat → FetchOutcome)
    (now : Nat) : ClientState × SyncReport :=
  if !st.online then (st, ⟨false, 0, 0⟩)
  else
    let pendingOps := getPendingOperations st.store
    if pendingOps.isEmpty then (st, ⟨true, 0, 0⟩)
    else
      let st := setSyncStatus st .syncing
      let r := syncLoop st pendingOps f 0 now 0 0
      let synced := r.2.1
      let failed := r.2.2
      let st := if synced > 0 then { r.1 with store := clearPendingOperations r.1.store } else r.1
      let st := setSyncStatus st (if failed > 0 then .error else .idle)
      (st, ⟨failed == 0, synced, failed⟩)

/-- Outcome of the `GET /api/data` fetch in `downloadAllData`:
a reply with `success: true` carries the (possibly absent) `data` array. -/
inductive ListOutcome
  | respOk (data : Option (List Item))
  | respErr (msg : Option String)
  | netFail
deriving DecidableEq, Repr

/-- Result shape of `downloadAllData`: `{ success, data?, error? }`. -/
structure DownloadResult where
  success : Bool
  data : Option (List Item)
  error : Option String
deriving DecidableEq, Repr

/-- Model of `CloudSyncManager.downloadAllData()` (frontend lines 884-934). -/
def downloadAllData (st : ClientState) (out : ListOutcome) :
    ClientState × DownloadResult :=
  if !isLoggedIn st then
    (st, ⟨false, none, some "请先登录"⟩)
  else if !st.online then
    let st := setSyncStatus st .offline
    let cached := getCachedData st.store (currentUserId st)
    if cached.length > 0 then (st, ⟨true, some cached, none⟩)
    else (st, ⟨false, none, some "网络离线，无本地缓存数据"⟩)
  else
    let st := setSyncStatus st .syncing
    match out with
    | .respOk data =>
        let st := setSyncStatus st .idle
        let st :=
          match currentUserId st with
          | some uid => { st with store := cacheData st.store (some uid) (data.getD []) }
          | none => st
        (st, ⟨true, some (data.getD []), none⟩)
    | .respErr msg => (setSyncStatus st .error, ⟨false, none, some (msg.getD "下载失败")⟩)
    | .netFail =>
        let st := setSyncStatus st .error
        let cached := getCachedData st.store (currentUserId st)
        if cached.length > 0 then (st, ⟨true, some cached, none⟩)
        else (st, ⟨false, none, some "网络错误"⟩)

/-- Model of `AuthManager.logout()`: clears token and user (the `localStorage`
session entries it removes are the credential copies, outside this slice). -/
def logout (st : ClientState) : ClientState :=
  { st with token := none, currentUser := none }

/-- Model of `AuthUI.handleLogout()` (frontend lines 1429-1450): reads the current
user id, clears the session, clears that user's cache, then clears all
caches and the pending queue.  The subsequent calls only touch the DOM
(`updateHeaderUserStatus`, `AuthUI.updateSyncStatus('idle')`) or the
logged-out local data view (`StateManager.init`, `UI.renderMonthsData`);
none of them writes `CloudSyncManager.syncStatus`. -/
def handleLogout (st : ClientState) : ClientState :=
  let userId := currentUserId st
  let st := logout st
  let st := { st with store := clearUserCache st.store userId }
  { st with store := clearAllCache st.store }

/-- One row of the `sales_data` table, data columns only
(`created_at`/`updated_at` are DB-managed wall-clock metadata outside the
model); `id` is the `INTEGER PRIMARY KEY AUTOINCREMENT` row id. -/
structure SalesRow where
  id : Nat
  userId : Nat
  monthId : String
  monthName : String
  color : String
  config : String
  groupedData : String
  rawData : String
deriving DecidableEq, Repr

/-- Server-side store: the `sales_data` rows plus the autoincrement
counter that produces `lastInsertRowid`. -/
structure ServerState where
  rows : List SalesRow
  nextId : Nat
deriving DecidableEq, Repr

/-- JSON body of a data-route response: `{ success, id?, error? }`. -/
structure ServerResp where
  success : Bool
  id : Option Nat
  error : Option String
deriving DecidableEq, Repr

/-- The `UPDATE sales_data SET month_name = ?, color = ?, config = ?,
grouped_data = ?, raw_data = ? WHERE id = ?` statement of the upsert
route, applied to one row. -/
def updRow (cid : Nat) (b : UploadBody) (colorValue : String) (r : SalesRow) :
    SalesRow :=
  if r.id = cid then
    { r with monthName := b.monthName, color := colorValue,
             config := b.config, groupedData := b.groupedData,
             rawData := b.rawData }
  else r

/-- Model of `POST /api/data` (data routes lines 510-573): validates `monthId` and
`monthName` (the JS falsy check on a string argument), then updates the
existing `(user_id, month_id)` row in place or inserts a new one. -/
def serverUpsert (sv : ServerState) (uid : Nat) (b : UploadBody) :
    ServerState × ServerResp :=
  if b.monthId = "" then (sv, ⟨false, none, some "月份ID不能为空"⟩)
  else if b.monthName = "" then (sv, ⟨false, none, some "月份名称不能为空"⟩)
  else
    let colorValue := b.color.getD "#4A90A4"
    match sv.rows.find? (fun r => r.userId == uid && r.monthId == b.monthId) with
    | some existing =>
        ({ sv with rows := sv.rows.map (updRow existing.id b colorValue) },
         ⟨true, some existing.id, none⟩)
    | none =>
        let row : SalesRow :=
          ⟨sv.nextId, uid, b.monthId, b.monthName, colorValue,
           b.config, b.groupedData, b.rawData⟩
        ({ rows := sv.rows ++ [row], nextId := sv.nextId + 1 },
         ⟨true, some sv.nextId, none⟩)

/-- The `(identity, recordId)` key of the app-level uniqueness invariant:
`(user_id, month_id)`. -/
def rowKey (r : SalesRow) : Nat × String :=
  (r.userId, r.monthId)

/-- At most one row per `(identity, recordId)` — the upsert-not-insert-only
invariant of the `sales_data` table. -/
def uniqueKeys (rows : List SalesRow) : Prop :=
  rows.Pairwise (fun a c => rowKey a ≠ rowKey c)

/-- Model of `parseInt(req.params.id, 10)` with the `isNaN` rejection, modelled for
the canonical all-digit decimal ids the client sends. -/
def parseDecimal (s : String) : Option Nat :=
  if s.data ≠ [] ∧ s.data.all Char.isDigit then
    some (s.data.foldl (fun n c => n * 10 + (c.toNat - '0'.toNat)) 0)
  else none

/-- Model of `DELETE /api/data/:id` (data routes lines 583-621): parse the id,
404 when no row with that id belongs to the calling user, else delete it. -/
def serverDeleteRoute (sv : ServerState) (uid : Nat) (idParam : String) :
    ServerState × ServerResp :=
  match parseDecimal idParam with
  | none => (sv, ⟨false, none, some "无效的数据ID"⟩)
  | some dataId =>
      match sv.rows.find? (fun r => r.id == dataId && r.userId == uid) with
      | none => (sv, ⟨false, none, some "数据不存在或无权限删除"⟩)
      | some _ =>
          ({ sv with rows := sv.rows.filter (fun r => r.id != dataId) },
           ⟨true, none, none⟩)

/-- How the client's `const data = await response.json(); if (data.success)`
branch sees a server reply. -/
def outcomeOfResp (r : ServerResp) : FetchOutcome :=
  if r.success then .respOk r.id else .respErr r.error

/-- The JSON body `uploadData` actually posts to `/api/data`:
`JSON.stringify({ monthData })` (frontend line 800, matching the repo's own
API table "请求体 `{ monthData }`") — the record nested under the single
key `monthData`, with no flat fields beside it. -/
structure WireBody where
  monthData : UploadBody
deriving DecidableEq, Repr

/-- The six fields `POST /api/data` destructures from a posted JSON body
(`const { monthId, monthName, color, config, groupedData, rawData } =
req.body`, data routes line 513); a field the body does not carry is read
as `undefined` (`none`). -/
structure BodyFields where
  monthId : Option String
  monthName : Option String
  color : Option String
  config : Option String
  groupedData : Option String
  rawData : Option String
deriving DecidableEq, Repr

/-- Destructuring the client's wrapped body: its only key is `monthData`,
so every flat field the route reads is `undefined`. -/
def fieldsOfWire (_w : WireBody) : BodyFields :=
  ⟨none, none, none, none, none, none⟩

/-- Model of `POST /api/data` over the fields it destructures from the
posted body: the JS checks `!monthId || typeof monthId !== 'string'` and
`!monthName || typeof monthName !== 'string'` reject an absent or empty
field; when both are present the `JSON.stringify(x || default)` fallbacks
apply and the upsert core (`serverUpsert`, which models the same route on
a field-carrying body, the shape its own tests post) runs. -/
def serverUpsertFields (sv : ServerState) (uid : Nat) (f : BodyFields) :
    ServerState × ServerResp :=
  match f.monthId with
  | none => (sv, ⟨false, none, some "月份ID不能为空"⟩)
  | some mid =>
      if mid = "" then (sv, ⟨false, none, some "月份ID不能为空"⟩)
      else
        match f.monthName with
        | none => (sv, ⟨false, none, some "月份名称不能为空"⟩)
        | some mname =>
            if mname = "" then (sv, ⟨false, none, some "月份名称不能为空"⟩)
            else
              serverUpsert sv uid
                ⟨mid, mname, f.color, f.config.getD "\x7b\x7d",
                 f.groupedData.getD "[]", f.rawData.getD "[]"⟩

/-- Composite of `uploadData` wired to the embedded `POST /api/data` route
exactly as the program wires them: when the client is logged in and online
the fetch reaches the route as the bearer identity `uid`, carrying the
wrapped body `{ monthData: b }` the client builds — whose flat
destructuring by the route yields `undefined` for every field, so the
route's first validation fires; otherwise the engine short-circuits before
fetching and the server is untouched (the outcome argument is dead in
those branches). -/
def uploadOnline (uid : Nat) (st : ClientState) (sv : ServerState)
    (b : UploadBody) (now : Nat) : ClientState × ServerState × OpResult :=
  if isLoggedIn st && st.online then
    let p := serverUpsertFields sv uid (fieldsOfWire ⟨b⟩)
    let q := uploadData st b now (outcomeOfResp p.2)
    (q.1, p.1, q.2)
  else
    let q := uploadData st b now .netFail
    (q.1, sv, q.2)

/-- Composite of `deleteData` wired to the embedded `DELETE /api/data/:id` route, same
convention as `uploadOnline`. -/
def deleteOnline (uid : Nat) (st : ClientState) (sv : ServerState)
    (monthId : String) (now : Nat) : ClientState × ServerState × OpResult :=
  if isLoggedIn st && st.online then
    let p := serverDeleteRoute sv uid monthId
    let q := deleteData st monthId now (outcomeOfResp p.2)
    (q.1, p.1, q.2)
  else
    let q := deleteData st monthId now .netFail
    (q.1, sv, q.2)

/-- One row of the `users` table. -/
structure UserRow where
  id : Nat
  username : String
  passwordHash : String
deriving DecidableEq, Repr

/-- Response of `POST /api/auth/login`. -/
inductive LoginResp
  | ok (token : String) (id : Nat) (username : String)
  | fail (status : Nat) (error : String)
deriving DecidableEq, Repr

/-- JavaScript `String.prototype.trim`, modelled over the character list
(restricted to the ASCII whitespace the routes encounter). -/
def isWs (c : Char) : Bool :=
  c = ' ' || c = '\t' || c = '\n' || c = '\r'

/-- Strip leading and trailing whitespace. -/
def trimStr (s : String) : String :=
  ⟨((s.data.dropWhile isWs).reverse.dropWhile isWs).reverse⟩

/-- Model of `POST /api/auth/login` (auth routes lines 514-569).  `hash` stands for
the password-hashing primitive (`verifyPassword p h` is `hash p = h`) and
`tok` for `generateToken`, both opaque collaborators. -/
def loginRoute (db : List UserRow) (hash : String → String)
    (tok : Nat → String → String) (username password : String) : LoginResp :=
  if username = "" ∨ password = "" then .fail 401 "用户名或密码错误"
  else
    let trimmed := trimStr username
    match db.find? (fun u => u.username == trimmed) with
    | none => .fail 401 "用户名或密码错误"
    | some user =>
        if hash password = user.passwordHash then
          .ok (tok user.id user.username) user.id user.username
        else .fail 401 "用户名或密码错误"

/-- The operation the failure branch of `uploadData`/`deleteData` would
re-append for a replayed operation: same kind and payload, fresh
`Date.now()` timestamp. -/
def refreshOp (op : PendingOp) (now : Nat) : PendingOp :=
  match op with
  | .upload d _ => .upload d now
  | .delete m _ => .delete m now

/-- The operations appended to the pending log during an online replay of
`ops` whose `i`-th fetch outcome is `f i`: the enqueue-on-failure branch
fires exactly on the network-failed replays of a logged-in session. -/
def reEnqueues (loggedIn : Bool) (ops : List PendingOp) (f : Nat → FetchOutcome)
    (i now : Nat) : List PendingOp :=
  match ops with
  | [] => []
  | op :: rest =>
      (match loggedIn, f i with
       | true, .netFail => [refreshOp op now]
       | _, _ => []) ++ reEnqueues loggedIn rest f (i + 1) now

/-! ## Theorems -/

/-- Frame property: `uploadData` only writes the sync status and the pending queue: the
session fields, reachability flag and cache entries are untouched. -/
theorem uploadData_frame (st : ClientState) (d : UploadBody) (now : Nat)
    (out : FetchOutcome) :
    (uploadData st d now out).1.token = st.token
    ∧ (uploadData st d now out).1.currentUser = st.currentUser
    ∧ (uploadData st d now out).1.online = st.online
    ∧ (uploadData st d now out).1.store.cacheBlobs = st.store.cacheBlobs := by
  cases h1 : isLoggedIn st <;> cases h2 : st.online <;> cases out <;>
    simp [uploadData, h1, h2, setSyncStatus, addPendingOperation]

/-- Frame property: `deleteData` only writes the sync status and the pending queue. -/
theorem deleteData_frame (st : ClientState) (m : String) (now : Nat)
    (out : FetchOutcome) :
    (deleteData st m now out).1.token = st.token
    ∧ (deleteData st m now out).1.currentUser = st.currentUser
    ∧ (deleteData st m now out).1.online = st.online
    ∧ (deleteData st m now out).1.store.cacheBlobs = st.store.cacheBlobs := by
  cases h1 : isLoggedIn st <;> cases h2 : st.online <;> cases out <;>
    simp [deleteData, h1, h2, setSyncStatus, addPendingOperation]

/-- One replay iteration preserves the session fields and reachability. -/
theorem syncStep_frame (st : ClientState) (op : PendingOp) (now : Nat)
    (out : FetchOutcome) :
    (syncStep st op now out).1.token = st.token
    ∧ (syncStep st op now out).1.currentUser = st.currentUser
    ∧ (syncStep st op now out).1.online = st.online := by
  cases op with
  | upload d t =>
      exact ⟨(uploadData_frame st d now out).1, (uploadData_frame st d now out).2.1,
             (uploadData_frame st d now out).2.2.1⟩
  | delete m t =>
      exact ⟨(deleteData_frame st m now out).1, (deleteData_frame st m now out).2.1,
             (deleteData_frame st m now out).2.2.1⟩

/-- Effect of one online replay iteration on the pending queue: unchanged,
except that a network-failed replay of a logged-in session re-appends the
operation with a fresh timestamp. -/
theorem syncStep_pending (st : ClientState) (op : PendingOp) (now : Nat)
    (out : FetchOutcome) (hon : st.online = true) :
    getPendingOperations (syncStep st op now out).1.store
      = getPendingOperations st.store
        ++ (match isLoggedIn st, out with
            | true, .netFail => [refreshOp op now]
            | _, _ => []) := by
  cases op <;> cases h1 : isLoggedIn st <;> cases out <;>
    simp [syncStep, uploadData, deleteData, h1, hon, refreshOp, setSyncStatus,
          addPendingOperation, getPendingOperations]

/-- The replay loop preserves the session fields and reachability, and its
net effect on the pending queue is to append `reEnqueues`. -/
theorem syncLoop_spec (ops : List PendingOp) (st : ClientState)
    (f : Nat → FetchOutcome) (i now s0 f0 : Nat) (hon : st.online = true) :
    (syncLoop st ops f i now s0 f0).1.online = st.online
    ∧ (syncLoop st ops f i now s0 f0).1.token = st.token
    ∧ (syncLoop st ops f i now s0 f0).1.currentUser = st.currentUser
    ∧ getPendingOperations (syncLoop st ops f i now s0 f0).1.store
        = getPendingOperations st.store ++ reEnqueues (isLoggedIn st) ops f i now := by
  induction ops generalizing st i s0 f0 with
  | nil => simp [syncLoop, reEnqueues]
  | cons op rest ih =>
      obtain ⟨htok, husr, hnl⟩ := syncStep_frame st op now (f i)
      have hon2 : (syncStep st op now (f i)).1.online = true := hnl.trans hon
      have hlog2 : isLoggedIn (syncStep st op now (f i)).1 = isLoggedIn st := by
        simp [isLoggedIn, htok, husr]
      have hpend := syncStep_pending st op now (f i) hon
      obtain ⟨ih1, ih2, ih3, ih4⟩ :=
        ih (syncStep st op now (f i)).1 (i + 1)
          (if (syncStep st op now (f i)).2 then s0 + 1 else s0)
          (if (syncStep st op now (f i)).2 then f0 else f0 + 1) hon2
      cases hres : (syncStep st op now (f i)).2 with
      | true =>
          refine ⟨?_, ?_, ?_, ?_⟩ <;>
            simp only [syncLoop, hres, if_true] <;>
            simp_all [reEnqueues, List.append_assoc]
      | false =>
          refine ⟨?_, ?_, ?_, ?_⟩ <;>
            simp only [syncLoop, hres, if_false] <;>
            simp_all [reEnqueues, List.append_assoc]

/-- C1: evaluation of `syncPendingOperations` at the failing input — online
logged-in session, pending log `[upload m1, upload m2]`, first replay
succeeds, second replay is rejected by the server.  The run reports one
success and one failure, yet the entire log is cleared (the code's guard is
`synced > 0`, not `failed === 0`), so the failed operation is dropped
instead of being left intact for a future retry; the status does go to
`error`. -/
theorem syncPendingOperations_partial_failure_clears_log :
    (syncPendingOperations
        ⟨some "t", some ⟨some 1, "u"⟩, .idle, true,
         ⟨[], some (.ok [.upload ⟨"m1", "Jan", none, "\x7b\x7d", "[]", "[]"⟩ 1,
                         .upload ⟨"m2", "Feb", none, "\x7b\x7d", "[]", "[]"⟩ 2])⟩⟩
        (fun i => if i = 0 then .respOk (some 1) else .respErr none) 9).2.synced = 1
    ∧ (syncPendingOperations
        ⟨some "t", some ⟨some 1, "u"⟩, .idle, true,
         ⟨[], some (.ok [.upload ⟨"m1", "Jan", none, "\x7b\x7d", "[]", "[]"⟩ 1,
                         .upload ⟨"m2", "Feb", none, "\x7b\x7d", "[]", "[]"⟩ 2])⟩⟩
        (fun i => if i = 0 then .respOk (some 1) else .respErr none) 9).2.failed = 1
    ∧ getPendingOperations (syncPendingOperations
        ⟨some "t", some ⟨some 1, "u"⟩, .idle, true,
         ⟨[], some (.ok [.upload ⟨"m1", "Jan", none, "\x7b\x7d", "[]", "[]"⟩ 1,
                         .upload ⟨"m2", "Feb", none, "\x7b\x7d", "[]", "[]"⟩ 2])⟩⟩
        (fun i => if i = 0 then .respOk (some 1) else .respErr none) 9).1.store = []
    ∧ (syncPendingOperations
        ⟨some "t", some ⟨some 1, "u"⟩, .idle, true,
         ⟨[], some (.ok [.upload ⟨"m1", "Jan", none, "\x7b\x7d", "[]", "[]"⟩ 1,
                         .upload ⟨"m2", "Feb", none, "\x7b\x7d", "[]", "[]"⟩ 2])⟩⟩
        (fun i => if i = 0 then .respOk (some 1) else .respErr none) 9).1.syncStatus
        = .error := by
  decide

/-- C2 counterexample: a replayed upload that fails with a network error is
re-appended by `uploadData`'s enqueue-on-failure branch (the replay calls
`this.uploadData`, not the remote service directly), so after a run with no
successes the pending log is longer than before — refuting "never longer
than it was before the run". -/
theorem syncPendingOperations_growth_cex :
    ¬ ((getPendingOperations (syncPendingOperations
          ⟨some "t", some ⟨some 1, "u"⟩, .idle, true,
           ⟨[], some (.ok [.upload ⟨"m1", "Jan", none, "\x7b\x7d", "[]", "[]"⟩ 1])⟩⟩
          (fun _ => .netFail) 7).1.store).length
        ≤ (getPendingOperations
            (⟨[], some (.ok [.upload ⟨"m1", "Jan", none, "\x7b\x7d", "[]", "[]"⟩ 1])⟩ :
              LocalStore)).length) := by
  decide

/-- C2 as amended: an online replay run issues each pending operation
through the full `uploadData`/`deleteData`, whose enqueue-on-failure branch
re-appends a copy (fresh timestamp) of every network-failed replay; hence
the log after the run is empty when at least one replay succeeded, and
otherwise it is the original log extended by those re-enqueued copies —
it can grow. -/
theorem syncPendingOperations_replay_appends (st : ClientState)
    (f : Nat → FetchOutcome) (now : Nat) (hon : st.online = true) :
    getPendingOperations (syncPendingOperations st f now).1.store
      = (if 0 < (syncPendingOperations st f now).2.synced then ([] : List PendingOp)
         else getPendingOperations st.store
              ++ reEnqueues (isLoggedIn st) (getPendingOperations st.store) f 0 now) := by
  by_cases hemp : (getPendingOperations st.store).isEmpty
  · have he : getPendingOperations st.store = [] := List.isEmpty_iff.mp hemp
    simp [syncPendingOperations, hon, hemp, he, reEnqueues]
  · have hne : (getPendingOperations st.store).isEmpty = false := by
      simpa using hemp
    obtain ⟨l1, l2, l3, l4⟩ :=
      syncLoop_spec (getPendingOperations st.store) (setSyncStatus st .syncing)
        f 0 now 0 0 hon
    by_cases hs :
        0 < (syncLoop (setSyncStatus st .syncing) (getPendingOperations st.store)
              f 0 now 0 0).2.1 <;>
      simp_all [syncPendingOperations, hon, hne, setSyncStatus, isLoggedIn,
                clearPendingOperations, getPendingOperations]

/-- Witness for C2's amended theorem at the one-item log whose replay
fails with a network error. -/
theorem syncPendingOperations_replay_appends_witness :
    (⟨some "t", some ⟨some 1, "u"⟩, .idle, true,
      ⟨[], some (.ok [.upload ⟨"m3", "Mar", none, "\x7b\x7d", "[]", "[]"⟩ 1])⟩⟩ :
        ClientState).online = true
    ∧ getPendingOperations (syncPendingOperations
        ⟨some "t", some ⟨some 1, "u"⟩, .idle, true,
         ⟨[], some (.ok [.upload ⟨"m3", "Mar", none, "\x7b\x7d", "[]", "[]"⟩ 1])⟩⟩
        (fun _ => .netFail) 7).1.store
      = (if 0 < (syncPendingOperations
            ⟨some "t", some ⟨some 1, "u"⟩, .idle, true,
             ⟨[], some (.ok [.upload ⟨"m3", "Mar", none, "\x7b\x7d", "[]", "[]"⟩ 1])⟩⟩
            (fun _ => .netFail) 7).2.synced then ([] : List PendingOp)
         else getPendingOperations
                (⟨[], some (.ok [.upload ⟨"m3", "Mar", none, "\x7b\x7d", "[]", "[]"⟩ 1])⟩ :
                  LocalStore)
              ++ reEnqueues
                   (isLoggedIn ⟨some "t", some ⟨some 1, "u"⟩, .idle, true,
                     ⟨[], some (.ok [.upload ⟨"m3", "Mar", none, "\x7b\x7d", "[]", "[]"⟩ 1])⟩⟩)
                   (getPendingOperations
                     (⟨[], some (.ok [.upload ⟨"m3", "Mar", none, "\x7b\x7d", "[]", "[]"⟩ 1])⟩ :
                       LocalStore))
                   (fun _ => .netFail) 0 7) :=
  ⟨by decide,
   syncPendingOperations_replay_appends
     ⟨some "t", some ⟨some 1, "u"⟩, .idle, true,
      ⟨[], some (.ok [.upload ⟨"m3", "Mar", none, "\x7b\x7d", "[]", "[]"⟩ 1])⟩⟩
     (fun _ => .netFail) 7 (by decide)⟩

/-- C10: at the LocalCache public interface, `cacheData` and `getCachedData`
are total and never raise: with an absent user id, `cacheData` writes
nothing and `getCachedData` returns the empty sequence; and when the stored
blob is missing (`u1`) or fails to parse (`u2`), `getCachedData` returns the
empty sequence instead of an error. -/
theorem cacheInterface_total (st : LocalStore) (data : List Item) (u1 u2 : Nat)
    (h1 : st.cacheBlobs.lookup u1 = none)
    (h2 : st.cacheBlobs.lookup u2 = some .bad) :
    cacheData st none data = st
    ∧ getCachedData st none = []
    ∧ getCachedData st (some u1) = []
    ∧ getCachedData st (some u2) = [] := by
  refine ⟨rfl, rfl, ?_, ?_⟩ <;> simp [getCachedData, h1, h2]

/-- Witness for C10 at the store holding a corrupt blob for user 2 and
nothing for user 1. -/
theorem cacheInterface_total_witness :
    (LocalStore.mk [(2, CacheBlob.bad)] none).cacheBlobs.lookup 1 = none
    ∧ (LocalStore.mk [(2, CacheBlob.bad)] none).cacheBlobs.lookup 2 = some .bad
    ∧ (cacheData ⟨[(2, .bad)], none⟩ none [] = ⟨[(2, .bad)], none⟩
       ∧ getCachedData ⟨[(2, .bad)], none⟩ none = []
       ∧ getCachedData ⟨[(2, .bad)], none⟩ (some 1) = []
       ∧ getCachedData ⟨[(2, .bad)], none⟩ (some 2) = []) :=
  ⟨by decide, by decide,
   cacheInterface_total ⟨[(2, .bad)], none⟩ [] 1 2 (by decide) (by decide)⟩

/-- C9 counterexample: with the engine status `error` before logout,
`handleLogout` clears the session, the cache and the pending log, but the
engine's `syncStatus` stays `error` — the claim's "sync status is set to
idle" conjunct is false (`AuthUI.updateSyncStatus('idle')` only writes DOM
elements, and even hides the indicator since no user is logged in). -/
theorem handleLogout_cex :
    ¬ ((handleLogout ⟨some "t", some ⟨some 1, "alice"⟩, .error, true,
          ⟨[(1, .ok [])], some (.ok [.delete "5" 3])⟩⟩).token = none
       ∧ (handleLogout ⟨some "t", some ⟨some 1, "alice"⟩, .error, true,
          ⟨[(1, .ok [])], some (.ok [.delete "5" 3])⟩⟩).currentUser = none
       ∧ getCachedData (handleLogout ⟨some "t", some ⟨some 1, "alice"⟩, .error, true,
          ⟨[(1, .ok [])], some (.ok [.delete "5" 3])⟩⟩).store (some 1) = []
       ∧ getPendingOperations (handleLogout ⟨some "t", some ⟨some 1, "alice"⟩, .error, true,
          ⟨[(1, .ok [])], some (.ok [.delete "5" 3])⟩⟩).store = []
       ∧ (handleLogout ⟨some "t", some ⟨some 1, "alice"⟩, .error, true,
          ⟨[(1, .ok [])], some (.ok [.delete "5" 3])⟩⟩).syncStatus = SyncStatus.idle) := by
  decide

/-- C9 as amended: after `handleLogout` the credential and identity are
cleared, `getCachedData` is empty for every identity, and the
pending-operation log is empty; the engine's sync status field is left
unchanged (only the DOM indicator is rewritten). -/
theorem handleLogout_erasure (st : ClientState) (p : Nat) :
    (handleLogout st).token = none
    ∧ (handleLogout st).currentUser = none
    ∧ getCachedData (handleLogout st).store (some p) = []
    ∧ getPendingOperations (handleLogout st).store = []
    ∧ (handleLogout st).syncStatus = st.syncStatus := by
  simp [handleLogout, logout, clearAllCache, clearUserCache, clearPendingOperations,
        getCachedData, getPendingOperations]

/-- C3 counterexample: offline `uploadData` does append the pending
operation, but it leaves the local cache untouched (no optimistic update)
and its result has `success: false` — a failure result carrying a
"saved locally" message, not a success-with-caveat. -/
theorem uploadData_offline_cex :
    ¬ ((uploadData ⟨some "t", some ⟨some 1, "u"⟩, .idle, false, ⟨[], none⟩⟩
          ⟨"m1", "Jan", none, "\x7b\x7d", "[]", "[]"⟩ 5 .netFail).2.success = true
       ∧ getCachedData (uploadData ⟨some "t", some ⟨some 1, "u"⟩, .idle, false, ⟨[], none⟩⟩
          ⟨"m1", "Jan", none, "\x7b\x7d", "[]", "[]"⟩ 5 .netFail).1.store (some 1)
           ≠ getCachedData (⟨[], none⟩ : LocalStore) (some 1)
       ∧ getPendingOperations (uploadData ⟨some "t", some ⟨some 1, "u"⟩, .idle, false, ⟨[], none⟩⟩
          ⟨"m1", "Jan", none, "\x7b\x7d", "[]", "[]"⟩ 5 .netFail).1.store
           = [.upload ⟨"m1", "Jan", none, "\x7b\x7d", "[]", "[]"⟩ 5]) := by
  decide

/-- C3 as amended: for every authenticated session and record, when the
network is unreachable `uploadData` appends an upload PendingOperation,
sets the status to `offline`, leaves the local cache unmodified, and
returns a result with `success: false` whose error message says the data
was saved locally. -/
theorem uploadData_offline_saves_pending (st : ClientState) (b : UploadBody)
    (now : Nat) (out : FetchOutcome)
    (hlog : isLoggedIn st = true) (hoff : st.online = false) :
    (uploadData st b now out).1.syncStatus = .offline
    ∧ getPendingOperations (uploadData st b now out).1.store
        = getPendingOperations st.store ++ [.upload b now]
    ∧ (uploadData st b now out).1.store.cacheBlobs = st.store.cacheBlobs
    ∧ (uploadData st b now out).2 = ⟨false, none, some "网络离线，数据已保存到本地"⟩ := by
  simp [uploadData, hlog, hoff, setSyncStatus, addPendingOperation, getPendingOperations]

/-- Witness for C3's amended theorem at a concrete offline session. -/
theorem uploadData_offline_saves_pending_witness :
    isLoggedIn ⟨some "t", some ⟨some 1, "u"⟩, .idle, false, ⟨[], none⟩⟩ = true
    ∧ (⟨some "t", some ⟨some 1, "u"⟩, .idle, false, ⟨[], none⟩⟩ : ClientState).online = false
    ∧ ((uploadData ⟨some "t", some ⟨some 1, "u"⟩, .idle, false, ⟨[], none⟩⟩
          ⟨"m2", "Feb", none, "\x7b\x7d", "[]", "[]"⟩ 7 .netFail).1.syncStatus = .offline
       ∧ getPendingOperations (uploadData ⟨some "t", some ⟨some 1, "u"⟩, .idle, false, ⟨[], none⟩⟩
          ⟨"m2", "Feb", none, "\x7b\x7d", "[]", "[]"⟩ 7 .netFail).1.store
            = getPendingOperations (⟨[], none⟩ : LocalStore) ++ [.upload ⟨"m2", "Feb", none, "\x7b\x7d", "[]", "[]"⟩ 7]
       ∧ (uploadData ⟨some "t", some ⟨some 1, "u"⟩, .idle, false, ⟨[], none⟩⟩
          ⟨"m2", "Feb", none, "\x7b\x7d", "[]", "[]"⟩ 7 .netFail).1.store.cacheBlobs
            = (⟨[], none⟩ : LocalStore).cacheBlobs
       ∧ (uploadData ⟨some "t", some ⟨some 1, "u"⟩, .idle, false, ⟨[], none⟩⟩
          ⟨"m2", "Feb", none, "\x7b\x7d", "[]", "[]"⟩ 7 .netFail).2
            = ⟨false, none, some "网络离线，数据已保存到本地"⟩) :=
  ⟨by decide, by decide,
   uploadData_offline_saves_pending ⟨some "t", some ⟨some 1, "u"⟩, .idle, false, ⟨[], none⟩⟩
     ⟨"m2", "Feb", none, "\x7b\x7d", "[]", "[]"⟩ 7 .netFail (by decide) (by decide)⟩

/-- C5: for an authenticated identity with the network unreachable,
`downloadAllData` sets the status to `offline` and returns exactly the
cached record set when the cache is non-empty, and the offline-no-cache
error when it is empty. -/
theorem downloadAllData_offline_fallback (st : ClientState) (out : ListOutcome)
    (uid : Nat) (hlog : isLoggedIn st = true) (hoff : st.online = false)
    (hid : currentUserId st = some uid) :
    (downloadAllData st out).1.syncStatus = .offline
    ∧ (downloadAllData st out).2 =
        (if getCachedData st.store (some uid) = [] then
           ⟨false, none, some "网络离线，无本地缓存数据"⟩
         else ⟨true, some (getCachedData st.store (some uid)), none⟩) := by
  have hcur : currentUserId (setSyncStatus st .offline) = some uid := hid
  by_cases h : getCachedData st.store (some uid) = [] <;>
    simp [downloadAllData, hlog, hoff, setSyncStatus, hid, h, List.length_pos,
          List.isEmpty_iff] <;>
    simp_all [setSyncStatus, currentUserId, getCachedData]

/-- Witness for C5 at a session whose cache holds one record. -/
theorem downloadAllData_offline_fallback_witness :
    isLoggedIn ⟨some "t", some ⟨some 1, "u"⟩, .idle, false,
        ⟨[(1, .ok [⟨"r1", .undef⟩])], none⟩⟩ = true
    ∧ (⟨some "t", some ⟨some 1, "u"⟩, .idle, false,
        ⟨[(1, .ok [⟨"r1", .undef⟩])], none⟩⟩ : ClientState).online = false
    ∧ currentUserId ⟨some "t", some ⟨some 1, "u"⟩, .idle, false,
        ⟨[(1, .ok [⟨"r1", .undef⟩])], none⟩⟩ = some 1
    ∧ ((downloadAllData ⟨some "t", some ⟨some 1, "u"⟩, .idle, false,
          ⟨[(1, .ok [⟨"r1", .undef⟩])], none⟩⟩ .netFail).1.syncStatus = .offline
       ∧ (downloadAllData ⟨some "t", some ⟨some 1, "u"⟩, .idle, false,
          ⟨[(1, .ok [⟨"r1", .undef⟩])], none⟩⟩ .netFail).2 =
          (if getCachedData (⟨[(1, .ok [⟨"r1", .undef⟩])], none⟩ : LocalStore) (some 1) = [] then
             ⟨false, none, some "网络离线，无本地缓存数据"⟩
           else ⟨true, some (getCachedData (⟨[(1, .ok [⟨"r1", .undef⟩])], none⟩ : LocalStore) (some 1)), none⟩)) :=
  ⟨by decide, by decide, by decide,
   downloadAllData_offline_fallback ⟨some "t", some ⟨some 1, "u"⟩, .idle, false,
       ⟨[(1, .ok [⟨"r1", .undef⟩])], none⟩⟩ .netFail 1 (by decide) (by decide) (by decide)⟩

/-- C8: a login whose username is unregistered and a login whose username
exists but whose password does not verify produce the same single generic
invalid-credentials error (HTTP 401, "用户名或密码错误"), so the response
does not distinguish an unknown user from a wrong secret. -/
theorem login_generic_error (db : List UserRow) (hash : String → String)
    (tok : Nat → String → String) (n1 p1 n2 p2 : String) (u : UserRow)
    (hn1 : n1 ≠ "") (hp1 : p1 ≠ "") (hn2 : n2 ≠ "") (hp2 : p2 ≠ "")
    (h1 : db.find? (fun r => r.username == trimStr n1) = none)
    (h2 : db.find? (fun r => r.username == trimStr n2) = some u)
    (h3 : hash p2 ≠ u.passwordHash) :
    loginRoute db hash tok n1 p1 = .fail 401 "用户名或密码错误"
    ∧ loginRoute db hash tok n2 p2 = .fail 401 "用户名或密码错误"
    ∧ loginRoute db hash tok n1 p1 = loginRoute db hash tok n2 p2 := by
  have e1 : loginRoute db hash tok n1 p1 = .fail 401 "用户名或密码错误" := by
    simp [loginRoute, hn1, hp1, h1]
  have e2 : loginRoute db hash tok n2 p2 = .fail 401 "用户名或密码错误" := by
    simp [loginRoute, hn2, hp2, h2, h3]
  exact ⟨e1, e2, e1.trans e2.symm⟩

/-- Witness for C8: a one-user table, an unknown name "bob" versus a wrong
secret for the registered "alice". -/
theorem login_generic_error_witness :
    ("bob" : String) ≠ ""
    ∧ ("secret2" : String) ≠ ""
    ∧ ("alice" : String) ≠ ""
    ∧ ("wrong1" : String) ≠ ""
    ∧ ([⟨1, "alice", "#secret1"⟩] : List UserRow).find?
        (fun r => r.username == trimStr "bob") = none
    ∧ ([⟨1, "alice", "#secret1"⟩] : List UserRow).find?
        (fun r => r.username == trimStr "alice") = some ⟨1, "alice", "#secret1"⟩
    ∧ (fun p => "#" ++ p) "wrong1" ≠ (UserRow.mk 1 "alice" "#secret1").passwordHash
    ∧ (loginRoute [⟨1, "alice", "#secret1"⟩] (fun p => "#" ++ p) (fun _ _ => "tk") "bob" "secret2"
         = .fail 401 "用户名或密码错误"
       ∧ loginRoute [⟨1, "alice", "#secret1"⟩] (fun p => "#" ++ p) (fun _ _ => "tk") "alice" "wrong1"
         = .fail 401 "用户名或密码错误"
       ∧ loginRoute [⟨1, "alice", "#secret1"⟩] (fun p => "#" ++ p) (fun _ _ => "tk") "bob" "secret2"
         = loginRoute [⟨1, "alice", "#secret1"⟩] (fun p => "#" ++ p) (fun _ _ => "tk") "alice" "wrong1") :=
  ⟨by decide, by decide, by decide, by decide, by decide, by decide, by decide,
   login_generic_error [⟨1, "alice", "#secret1"⟩] (fun p => "#" ++ p) (fun _ _ => "tk")
     "bob" "secret2" "alice" "wrong1" ⟨1, "alice", "#secret1"⟩
     (by decide) (by decide) (by decide) (by decide) (by decide) (by decide) (by decide)⟩

/-- C4 counterexample: deleting an id the server knows nothing about makes
`DELETE /api/data/:id` answer 404 `success: false`, and the engine then sets
the sync status to `error` — refuting "treats the response as success: it
does not set the sync status to error" (the no-new-pending-operation part
does hold). -/
theorem deleteData_notFound_cex :
    ¬ ((deleteOnline 1 ⟨some "t", some ⟨some 1, "u"⟩, .idle, true, ⟨[], none⟩⟩
          ⟨[], 1⟩ "5" 3).1.syncStatus ≠ SyncStatus.error
       ∧ getPendingOperations (deleteOnline 1 ⟨some "t", some ⟨some 1, "u"⟩, .idle, true, ⟨[], none⟩⟩
          ⟨[], 1⟩ "5" 3).1.store = getPendingOperations (⟨[], none⟩ : LocalStore)) := by
  decide

/-- C4 as amended: when the remote service reports not-found for a delete,
the engine returns the failure verbatim and sets the sync status to
`error`; it does not append a pending operation, and the remote rows are
unchanged. -/
theorem deleteData_notFound_error (uid : Nat) (st : ClientState) (sv : ServerState)
    (idParam : String) (now dataId : Nat)
    (hlog : isLoggedIn st = true) (hon : st.online = true)
    (hparse : parseDecimal idParam = some dataId)
    (hnone : sv.rows.find? (fun r => r.id == dataId && r.userId == uid) = none) :
    (deleteOnline uid st sv idParam now).1.syncStatus = .error
    ∧ getPendingOperations (deleteOnline uid st sv idParam now).1.store
        = getPendingOperations st.store
    ∧ (deleteOnline uid st sv idParam now).2.1 = sv
    ∧ (deleteOnline uid st sv idParam now).2.2
        = ⟨false, none, some "数据不存在或无权限删除"⟩ := by
  simp [deleteOnline, hlog, hon, serverDeleteRoute, hparse, hnone, outcomeOfResp,
        deleteData, setSyncStatus]

/-- Witness for C4's amended theorem: user 1 deletes id "5" on an empty
remote store. -/
theorem deleteData_notFound_error_witness :
    isLoggedIn ⟨some "t", some ⟨some 1, "u"⟩, .idle, true, ⟨[], none⟩⟩ = true
    ∧ (⟨some "t", some ⟨some 1, "u"⟩, .idle, true, ⟨[], none⟩⟩ : ClientState).online = true
    ∧ parseDecimal "5" = some 5
    ∧ (ServerState.mk [] 1).rows.find? (fun r => r.id == 5 && r.userId == 1) = none
    ∧ ((deleteOnline 1 ⟨some "t", some ⟨some 1, "u"⟩, .idle, true, ⟨[], none⟩⟩
          ⟨[], 1⟩ "5" 3).1.syncStatus = .error
       ∧ getPendingOperations (deleteOnline 1 ⟨some "t", some ⟨some 1, "u"⟩, .idle, true, ⟨[], none⟩⟩
          ⟨[], 1⟩ "5" 3).1.store = getPendingOperations (⟨[], none⟩ : LocalStore)
       ∧ (deleteOnline 1 ⟨some "t", some ⟨some 1, "u"⟩, .idle, true, ⟨[], none⟩⟩
          ⟨[], 1⟩ "5" 3).2.1 = ⟨[], 1⟩
       ∧ (deleteOnline 1 ⟨some "t", some ⟨some 1, "u"⟩, .idle, true, ⟨[], none⟩⟩
          ⟨[], 1⟩ "5" 3).2.2 = ⟨false, none, some "数据不存在或无权限删除"⟩) :=
  ⟨by decide, by decide, by decide, by decide,
   deleteData_notFound_error 1 ⟨some "t", some ⟨some 1, "u"⟩, .idle, true, ⟨[], none⟩⟩
     ⟨[], 1⟩ "5" 3 5 (by decide) (by decide) (by decide) (by decide)⟩

/-- C7: a successful `downloadAllData` overwrites the authenticated
identity's cache entry wholesale with exactly the serialized remote record
set — independent of any prior (divergent) cache content, so no local-only
record survives and no merge occurs — returns that record set, and sets
the status to `idle`. -/
theorem downloadAllData_cloud_wins (st : ClientState) (uid : Nat) (rs : List Item)
    (hlog : isLoggedIn st = true) (hon : st.online = true)
    (hid : currentUserId st = some uid) :
    (downloadAllData st (.respOk (some rs))).1.store.cacheBlobs.lookup uid
        = some (.ok (rs.map serializeItem))
    ∧ getCachedData (downloadAllData st (.respOk (some rs))).1.store (some uid)
        = rs.map (fun i => reviveItem (serializeItem i))
    ∧ (downloadAllData st (.respOk (some rs))).2 = ⟨true, some rs, none⟩
    ∧ (downloadAllData st (.respOk (some rs))).1.syncStatus = .idle := by
  simp [downloadAllData, hlog, hon, setSyncStatus, currentUserId] at *
  simp [downloadAllData, hlog, hon, hid, setSyncStatus, cacheData, storeSet,
        getCachedData, currentUserId]

/-- Witness for C7: a divergent one-record cache is replaced by the
two-record remote set. -/
theorem downloadAllData_cloud_wins_witness :
    isLoggedIn ⟨some "t", some ⟨some 1, "u"⟩, .idle, true,
        ⟨[(1, .ok [⟨"local-only", .undef⟩])], none⟩⟩ = true
    ∧ (⟨some "t", some ⟨some 1, "u"⟩, .idle, true,
        ⟨[(1, .ok [⟨"local-only", .undef⟩])], none⟩⟩ : ClientState).online = true
    ∧ currentUserId ⟨some "t", some ⟨some 1, "u"⟩, .idle, true,
        ⟨[(1, .ok [⟨"local-only", .undef⟩])], none⟩⟩ = some 1
    ∧ ((downloadAllData ⟨some "t", some ⟨some 1, "u"⟩, .idle, true,
          ⟨[(1, .ok [⟨"local-only", .undef⟩])], none⟩⟩
          (.respOk (some [⟨"r1", .undef⟩, ⟨"r2", .jsDate "2024-01-01T00:00:00.000Z"⟩]))).1.store.cacheBlobs.lookup 1
        = some (.ok ([⟨"r1", .undef⟩, ⟨"r2", .jsDate "2024-01-01T00:00:00.000Z"⟩].map serializeItem))
       ∧ getCachedData (downloadAllData ⟨some "t", some ⟨some 1, "u"⟩, .idle, true,
          ⟨[(1, .ok [⟨"local-only", .undef⟩])], none⟩⟩
          (.respOk (some [⟨"r1", .undef⟩, ⟨"r2", .jsDate "2024-01-01T00:00:00.000Z"⟩]))).1.store (some 1)
        = [⟨"r1", .undef⟩, ⟨"r2", .jsDate "2024-01-01T00:00:00.000Z"⟩].map (fun i => reviveItem (serializeItem i))
       ∧ (downloadAllData ⟨some "t", some ⟨some 1, "u"⟩, .idle, true,
          ⟨[(1, .ok [⟨"local-only", .undef⟩])], none⟩⟩
          (.respOk (some [⟨"r1", .undef⟩, ⟨"r2", .jsDate "2024-01-01T00:00:00.000Z"⟩]))).2
        = ⟨true, some [⟨"r1", .undef⟩, ⟨"r2", .jsDate "2024-01-01T00:00:00.000Z"⟩], none⟩
       ∧ (downloadAllData ⟨some "t", some ⟨some 1, "u"⟩, .idle, true,
          ⟨[(1, .ok [⟨"local-only", .undef⟩])], none⟩⟩
          (.respOk (some [⟨"r1", .undef⟩, ⟨"r2", .jsDate "2024-01-01T00:00:00.000Z"⟩]))).1.syncStatus = .idle) :=
  ⟨by decide, by decide, by decide,
   downloadAllData_cloud_wins ⟨some "t", some ⟨some 1, "u"⟩, .idle, true,
       ⟨[(1, .ok [⟨"local-only", .undef⟩])], none⟩⟩ 1
     [⟨"r1", .undef⟩, ⟨"r2", .jsDate "2024-01-01T00:00:00.000Z"⟩]
     (by decide) (by decide) (by decide)⟩

/-- Updating keeps the row id. -/
theorem updRow_id (cid : Nat) (b : UploadBody) (cv : String) (r : SalesRow) :
    (updRow cid b cv r).id = r.id := by
  unfold updRow; split <;> rfl

/-- Updating keeps the `(user_id, month_id)` key. -/
theorem updRow_key (cid : Nat) (b : UploadBody) (cv : String) (r : SalesRow) :
    rowKey (updRow cid b cv r) = rowKey r := by
  unfold updRow rowKey; split <;> rfl

/-- Applying the same update twice is the same as applying it once. -/
theorem updRow_idem (cid : Nat) (b : UploadBody) (cv : String) (r : SalesRow) :
    updRow cid b cv (updRow cid b cv r) = updRow cid b cv r := by
  by_cases h : r.id = cid <;> simp [updRow, h]

/-- Updating keeps the fields the upsert route's `find?` predicate reads. -/
theorem updRow_pred (cid : Nat) (b : UploadBody) (cv : String) (uid : Nat)
    (r : SalesRow) :
    ((updRow cid b cv r).userId == uid && (updRow cid b cv r).monthId == b.monthId)
      = (r.userId == uid && r.monthId == b.monthId) := by
  by_cases h : r.id = cid <;> simp [updRow, h]

/-- On a well-formed table (every row id below the autoincrement counter),
re-upserting the same body is a no-op on the server state: the second call
finds the row written by the first and rewrites it with identical values. -/
theorem serverUpsert_idempotent (sv : ServerState) (uid : Nat) (b : UploadBody)
    (hfresh : ∀ r ∈ sv.rows, r.id < sv.nextId) :
    (serverUpsert (serverUpsert sv uid b).1 uid b).1 = (serverUpsert sv uid b).1 := by
  by_cases h1 : b.monthId = ""
  · simp [serverUpsert, h1]
  by_cases h2 : b.monthName = ""
  · simp [serverUpsert, h1, h2]
  rcases hf : sv.rows.find? (fun r => r.userId == uid && r.monthId == b.monthId)
    with _ | e
  · -- first call inserts a fresh row; the second finds it and rewrites it
    -- with identical values
    have hmap : (sv.rows ++ [(⟨sv.nextId, uid, b.monthId, b.monthName,
          b.color.getD "#4A90A4", b.config, b.groupedData, b.rawData⟩ : SalesRow)]).map
            (updRow sv.nextId b (b.color.getD "#4A90A4"))
        = sv.rows ++ [(⟨sv.nextId, uid, b.monthId, b.monthName,
            b.color.getD "#4A90A4", b.config, b.groupedData, b.rawData⟩ : SalesRow)] := by
      rw [List.map_append]
      have hl : sv.rows.map (updRow sv.nextId b (b.color.getD "#4A90A4")) = sv.rows := by
        have := List.map_congr_left (l := sv.rows)
          (f := updRow sv.nextId b (b.color.getD "#4A90A4")) (g := id)
          (fun r hr => by simp [updRow, Nat.ne_of_lt (hfresh r hr)])
        simpa using this
      rw [hl]
      simp [updRow]
    simp [serverUpsert, h1, h2, hf, List.find?_append, hmap]
  · -- first call rewrites the found row; the second finds the rewritten row
    -- (same id) and rewrites it again with the same values
    have hfind2 : (sv.rows.map (updRow e.id b (b.color.getD "#4A90A4"))).find?
          (fun r => r.userId == uid && r.monthId == b.monthId)
        = some (updRow e.id b (b.color.getD "#4A90A4") e) := by
      rw [List.find?_map]
      have hpf : ((fun r => r.userId == uid && r.monthId == b.monthId)
            ∘ updRow e.id b (b.color.getD "#4A90A4"))
          = (fun r => r.userId == uid && r.monthId == b.monthId) :=
        funext fun r => updRow_pred e.id b (b.color.getD "#4A90A4") uid r
      rw [hpf, hf, Option.map_some']
    have hmap2 : (sv.rows.map (updRow e.id b (b.color.getD "#4A90A4"))).map
          (updRow (updRow e.id b (b.color.getD "#4A90A4") e).id b (b.color.getD "#4A90A4"))
        = sv.rows.map (updRow e.id b (b.color.getD "#4A90A4")) := by
      rw [updRow_id, List.map_map]
      exact List.map_congr_left fun r _ => updRow_idem e.id b (b.color.getD "#4A90A4") r
    simp [serverUpsert, h1, h2, hf, hfind2, hmap2]

/-- Upserting preserves the at-most-one-row-per-`(identity, recordId)`
invariant: an update keeps every key, an insert adds a key no existing row
has (that is what `find? = none` says). -/
theorem serverUpsert_uniqueKeys (sv : ServerState) (uid : Nat) (b : UploadBody)
    (hkeys : uniqueKeys sv.rows) :
    uniqueKeys (serverUpsert sv uid b).1.rows := by
  by_cases h1 : b.monthId = ""
  · simpa [serverUpsert, h1] using hkeys
  by_cases h2 : b.monthName = ""
  · simpa [serverUpsert, h1, h2] using hkeys
  rcases hf : sv.rows.find? (fun r => r.userId == uid && r.monthId == b.monthId)
    with _ | e
  · -- insert branch
    have hcross : ∀ a ∈ sv.rows,
        rowKey a ≠ rowKey (⟨sv.nextId, uid, b.monthId, b.monthName,
          b.color.getD "#4A90A4", b.config, b.groupedData, b.rawData⟩ : SalesRow) := by
      intro a ha
      have := List.find?_eq_none.mp hf a ha
      simp only [Bool.and_eq_true, beq_iff_eq, not_and] at this
      simp only [rowKey, ne_eq, Prod.mk.injEq, not_and]
      intro hu hm
      exact absurd hm (this hu)
    simp only [serverUpsert, h1, h2, hf, if_false]
    simp only [uniqueKeys] at hkeys ⊢
    exact List.pairwise_append.mpr
      ⟨hkeys, List.pairwise_singleton _ _, fun a ha c hc => by
        simp only [List.mem_singleton] at hc
        exact hc ▸ hcross a ha⟩
  · -- update branch: keys are unchanged row by row
    simp only [serverUpsert, h1, h2, hf, if_false]
    simp only [uniqueKeys] at hkeys ⊢
    rw [List.pairwise_map]
    exact hkeys.imp fun h => by
      rwa [updRow_key, updRow_key]

/-- C6: evaluation of the program's online upload path at the failing
input — an authenticated online session uploading the valid record
"m1"/"Jan" onto an empty remote store, twice.  The client posts the
payload wrapped as `{ monthData }` while the route destructures `req.body`
flat, so the destructured `monthId` is `undefined` and every online upload
is answered 400 `'月份ID不能为空'`: the remote store stays empty after
both calls (so "twice equals once" holds only vacuously), the engine sets
status `error`, no pending operation is appended, and the update-in-place
upsert the route implements for field-carrying bodies (see
`serverUpsert_idempotent`, `serverUpsert_uniqueKeys`, and the route's own
tests) is unreachable through `uploadRecord`. -/
theorem uploadRecord_online_always_rejected :
    (uploadOnline 1 ⟨some "t", some ⟨some 1, "u"⟩, .idle, true, ⟨[], none⟩⟩
        ⟨[], 1⟩ ⟨"m1", "Jan", none, "\x7b\x7d", "[]", "[]"⟩ 1).2.2
      = ⟨false, none, some "月份ID不能为空"⟩
    ∧ (uploadOnline 1 ⟨some "t", some ⟨some 1, "u"⟩, .idle, true, ⟨[], none⟩⟩
        ⟨[], 1⟩ ⟨"m1", "Jan", none, "\x7b\x7d", "[]", "[]"⟩ 1).2.1.rows = []
    ∧ (uploadOnline 1 (uploadOnline 1 ⟨some "t", some ⟨some 1, "u"⟩, .idle, true, ⟨[], none⟩⟩
          ⟨[], 1⟩ ⟨"m1", "Jan", none, "\x7b\x7d", "[]", "[]"⟩ 1).1
        (uploadOnline 1 ⟨some "t", some ⟨some 1, "u"⟩, .idle, true, ⟨[], none⟩⟩
          ⟨[], 1⟩ ⟨"m1", "Jan", none, "\x7b\x7d", "[]", "[]"⟩ 1).2.1
        ⟨"m1", "Jan", none, "\x7b\x7d", "[]", "[]"⟩ 2).2.1.rows = []
    ∧ (uploadOnline 1 ⟨some "t", some ⟨some 1, "u"⟩, .idle, true, ⟨[], none⟩⟩
        ⟨[], 1⟩ ⟨"m1", "Jan", none, "\x7b\x7d", "[]", "[]"⟩ 1).1.syncStatus
      = .error
    ∧ getPendingOperations (uploadOnline 1 ⟨some "t", some ⟨some 1, "u"⟩, .idle, true, ⟨[], none⟩⟩
        ⟨[], 1⟩ ⟨"m1", "Jan", none, "\x7b\x7d", "[]", "[]"⟩ 1).1.store = [] := by
  decide

end RyanData
